import Mathlib

/-!
Verification of `src/notion/api/client.py` (class `NotionClient`) against its
natural-language specification.

The Python source is shallowly embedded: JSON-like Python dict/list values
become the inductive type `Wire`; Python `Optional` arguments become `Option`;
Python truthiness tests (`if x:`) are modelled explicitly (`none` and the empty
string / empty list / zero are falsy); functions that raise become `Except`;
the `async` polling loop of `wait_for_file_upload` becomes a structurally
recursive driver over the stream of poll outcomes, instrumented with the
number of status queries it issues.  All definitions are translated from the
source; the inverse parsers used by the round-trip claim are the one
spec-derived exception and are named `parse_*`.
-/

/-- A Python value as it appears in the JSON-shaped dicts the client builds and
receives: strings, ints, floats, bools, lists and string-keyed dicts (kept as
association lists in insertion order; all dicts built by the source use
pairwise-distinct literal keys, so the association-list representation is
faithful). -/
inductive Wire where
  | str (s : String)
  | int (n : Int)
  | float (q : Rat)
  | bool (b : Bool)
  | list (xs : List Wire)
  | dict (fields : List (String × Wire))

/-- Python `d.get(k)` on a dict: `none` models Python `None` (key absent). -/
def Wire.get (w : Wire) (k : String) : Option Wire :=
  match w with
  | .dict fields => fields.lookup k
  | _ => none

/-- Python `d.get(k, {})`: defaulting variant used by the poller's error
extraction. -/
def Wire.getDictD (w : Wire) (k : String) : Wire :=
  match w.get k with
  | some v => v
  | none => .dict []

/-- Python `s.split(sep)` for a non-empty separator, on character lists:
left-to-right scan, non-overlapping matches, keeps empty pieces
(`"".split(". ") == [""]`, `"A. B.".split(". ") == ["A", "B."]`).
`fuel` bounds the recursion (any `fuel ≥ s.length` gives the scan's result);
`acc` is the reversed current piece. -/
def pySplitGo (sep : List Char) : Nat → List Char → List Char → List (List Char)
  | 0, acc, rest => [(acc.reverse ++ rest)]
  | _ + 1, acc, [] => [acc.reverse]
  | fuel + 1, acc, c :: rest =>
    if sep ≠ [] ∧ sep.isPrefixOf (c :: rest) then
      acc.reverse :: pySplitGo sep fuel [] ((c :: rest).drop sep.length)
    else
      pySplitGo sep fuel (c :: acc) rest

/-- Python `s.split(sep)` (non-empty `sep`), lifted to `String`. -/
def pySplit (s sep : String) : List String :=
  (pySplitGo sep.toList (s.toList.length + 1) [] s.toList).map List.asString

/-- Python `sep.join(parts)`. -/
def pyJoin (sep : String) : List String → String
  | [] => ""
  | [x] => x
  | x :: y :: xs => x ++ sep ++ pyJoin sep (y :: xs)

/-- Python `pat in s` (substring membership) on character lists. -/
def listContainsSublist (l pat : List Char) : Bool :=
  (List.range (l.length + 1)).any (fun i => pat.isPrefixOf (l.drop i))

/-- Python `pat in s` for strings. -/
def strContains (s pat : String) : Bool :=
  listContainsSublist s.toList pat.toList

/-- Python `s.startswith(p)`. -/
def pyStartsWith (s p : String) : Bool :=
  p.toList.isPrefixOf s.toList

/-- Truthiness of an optional Python string: `None` and `""` are falsy. -/
def pyTruthyStr : Option String → Bool
  | some s => s ≠ ""
  | none => false

/-- Truthiness of an optional Python integer: `None` and `0` are falsy. -/
def pyTruthyNat : Option Nat → Bool
  | some n => n ≠ 0
  | none => false

/-- `NotionClient._format_error_message` (client.py:112-124):
`message = error_data.get('message', '未知错误')`, split on `'. '`, drop empty
pieces, prefix each with `"- "`, join with newlines under a header.  The
source only ever receives string-valued `message` fields; a non-string value
(which would crash Python's `.split`) is mapped to the default. -/
def _format_error_message (error_data : Wire) : String :=
  let error_message : String :=
    match error_data.get "message" with
    | some (.str s) => s
    | _ => "未知错误"
  let error_details := pySplit error_message ". "
  let formatted_error :=
    pyJoin "\n" ((error_details.filter (fun detail => detail ≠ "")).map
      (fun detail => "- " ++ detail))
  "错误详情:\n" ++ formatted_error

example : _format_error_message (.dict [("message", .str "A. B."), ("code", .str "x")]) =
    "错误详情:\n- A\n- B." := rfl

/-- Modelled from the spec: the error taxonomy of §7 (the repository's
`src/notion/api/exceptions.py` is not under `src/`).  `transport` is the base
`NotionAPIError` (network / connection / unexpected-error kind),
`uploadFailure` is `NotionFileUploadError`, `pageOperationFailure` is
`NotionPageError`. -/
inductive ErrKind where
  | transport
  | uploadFailure
  | pageOperationFailure
  deriving DecidableEq, Repr

/-- Modelled from the spec: the `ApiError` record of §3 — the kind
discriminant, the human-readable message (`str(e)` in Python), and the
optional original HTTP status code and raw response body carried by
`NotionFileUploadError` / `NotionPageError` when the source passes them
(`status_code=...`, `response_body=...` in client.py:244-254); `none` when the
error is constructed from a message alone. -/
structure ApiError where
  kind : ErrKind
  message : String
  statusCode : Option Nat
  responseBody : Option String
  deriving DecidableEq, Repr

/-- The outcome of one HTTP exchange as seen by `_make_request`:
either the transport raised `aiohttp.ClientError` before a response arrived,
or a response with a status code, the HTTP reason phrase
(`ClientResponseError.message`), the parsed JSON body (`none` when the body is
not valid JSON, i.e. `json.loads` would raise `JSONDecodeError`), and the raw
body text (`await response.text()`). -/
inductive TransportOutcome where
  | clientError (errmsg : String)
  | response (status : Nat) (reason : String) (jsonBody : Option Wire) (text : String)

/-- `NotionClient._handle_response` (client.py:191-254).
`raise_for_status` raises `ClientResponseError` exactly when `status ≥ 400`.
On an error status the body is parsed: if it is JSON, `error_message` is the
formatted detail, otherwise the handler falls back to `e.message` (the HTTP
reason).  The raised error is `NotionFileUploadError` when `'file_uploads' in
url`, else `NotionPageError`, both carrying the status code and raw body.
A success response whose body is not JSON raises a decode error, modelled as a
base (transport-kind) error. -/
def _handle_response (url : String) (status : Nat) (reason : String)
    (jsonBody : Option Wire) (text : String) : Except ApiError Wire :=
  if status < 400 then
    match jsonBody with
    | some response_data => .ok response_data
    | none =>
      .error { kind := .transport, message := "invalid JSON in success response"
               , statusCode := none, responseBody := none }
  else
    let error_message : Option String := jsonBody.map _format_error_message
    let msg : String :=
      match error_message with
      | some m => m
      | none => reason
    if strContains url "file_uploads" then
      .error { kind := .uploadFailure
               , message := "Notion 文件上传失败: " ++ msg
               , statusCode := some status, responseBody := some text }
    else
      .error { kind := .pageOperationFailure
               , message := "Notion 页面操作失败: " ++ msg
               , statusCode := some status, responseBody := some text }

/-- `NotionClient._make_request` (client.py:126-189), for the supported HTTP
methods.  An `aiohttp.ClientError` from the transport is re-raised as
`NotionAPIError("Notion API 请求失败: " + str(e))`.  Any other exception from
inside the `try` — including the already-classified `NotionFileUploadError` /
`NotionPageError` raised by `_handle_response`, which are not
`aiohttp.ClientError`s — is caught by the blanket `except Exception` and
re-raised as `NotionAPIError("Notion API 请求发生意外错误: " + str(e))`, a base
error constructed from the message alone. -/
def _make_request (url : String) (outcome : TransportOutcome) : Except ApiError Wire :=
  match outcome with
  | .clientError errmsg =>
    .error { kind := .transport, message := "Notion API 请求失败: " ++ errmsg
             , statusCode := none, responseBody := none }
  | .response status reason jsonBody text =>
    match _handle_response url status reason jsonBody text with
    | .ok v => .ok v
    | .error e =>
      .error { kind := .transport
               , message := "Notion API 请求发生意外错误: " ++ e.message
               , statusCode := none, responseBody := none }

/-- The upload plan computed by `create_file_upload` before its network call:
the chosen mode string, the number of parts (`None` unless multi-part), and
the JSON payload it will POST to `/file_uploads`. -/
structure UploadPlan where
  mode : String
  number_of_parts : Option Nat
  payload : Wire

/-- `NotionClient.FILE_SIZE_THRESHOLD` (client.py:19): 20 MiB. -/
def FILE_SIZE_THRESHOLD : Nat := 20 * 1024 * 1024

/-- `NotionClient.PART_SIZE` (client.py:20): 10 MiB. -/
def PART_SIZE : Nat := 10 * 1024 * 1024

/-- The planning phase of `NotionClient.create_file_upload`
(client.py:516-578): everything up to (not including) the `_make_request`
network call.  `.error` models the `ValueError` raised for a non-`https://`
external URL; the URL branch is taken only when `external_url` is truthy
(Python `if external_url:` — `None` and `""` are falsy); in the size branch,
`if file_size and file_size > self.FILE_SIZE_THRESHOLD` picks multi-part with
`number_of_parts = (file_size + PART_SIZE - 1) // PART_SIZE`. -/
def create_file_upload_plan (file_name content_type : String)
    (file_size : Option Nat) (external_url : Option String) :
    Except String UploadPlan :=
  if pyTruthyStr external_url then
    let u := external_url.getD ""
    if ¬ pyStartsWith u "https://" then
      .error "external_url 必须以 https:// 开头"
    else
      .ok { mode := "external_url", number_of_parts := none
            , payload := .dict [("mode", .str "external_url"),
                                ("external_url", .str u),
                                ("filename", .str file_name)] }
  else
    if pyTruthyNat file_size ∧ file_size.getD 0 > FILE_SIZE_THRESHOLD then
      let n := file_size.getD 0
      let number_of_parts := (n + PART_SIZE - 1) / PART_SIZE
      .ok { mode := "multi_part", number_of_parts := some number_of_parts
            , payload := .dict [("mode", .str "multi_part"),
                                ("number_of_parts", .int number_of_parts),
                                ("filename", .str file_name),
                                ("content_type", .str content_type)] }
    else
      .ok { mode := "single_part", number_of_parts := none
            , payload := .dict [("filename", .str file_name),
                                ("content_type", .str content_type),
                                ("mode", .str "single_part")] }

/-- The mode of a planning result, `none` when planning raised. -/
def planMode : Except String UploadPlan → Option String
  | .ok p => some p.mode
  | .error _ => none

/-- The part count of a planning result, `none` when planning raised or the
plan is not multi-part. -/
def planParts : Except String UploadPlan → Option Nat
  | .ok p => p.number_of_parts
  | .error _ => none

/-- The payloads `create_file_upload` sends over the network: `_make_request`
is reached only after planning succeeds, so a planning error issues no
request. -/
def create_file_upload_network_calls (file_name content_type : String)
    (file_size : Option Nat) (external_url : Option String) : List Wire :=
  match create_file_upload_plan file_name content_type file_size external_url with
  | .error _ => []
  | .ok p => [p.payload]

example : planMode (create_file_upload_plan "f" "image/png" (some 25165824) none) =
    some "multi_part" := rfl

example : planParts (create_file_upload_plan "f" "image/png" (some 25165824) none) =
    some 3 := rfl

/-- `NotionClient._split_text_to_paragraphs` (client.py:388-390):
`[text[i:i+max_length] for i in range(0, len(text), max_length)]`.
Python strings are sequences of code points, modelled as `List Char`.
For `max_length > 0`, `range(0, len(text), max_length)` enumerates
`i = k * max_length` for `k < ceil(len(text) / max_length)`, and
`text[i:i+max_length]` is `(text.drop i).take max_length`. -/
def _split_text_to_paragraphs (text : List Char) (max_length : Nat) : List (List Char) :=
  (List.range ((text.length + max_length - 1) / max_length)).map
    (fun k => (text.drop (k * max_length)).take max_length)

/-- Recursive companion of `_split_text_to_paragraphs` (chunk size `m' + 1`),
used to reason about it by structural descent. -/
def splitChunks (m' : Nat) : List Char → List (List Char)
  | [] => []
  | c :: rest => ((c :: rest).take (m' + 1)) :: splitChunks m' (rest.drop m')
  termination_by l => l.length
  decreasing_by simp; omega

theorem _split_text_to_paragraphs_eq_splitChunks (m' : Nat) (text : List Char) :
    _split_text_to_paragraphs text (m' + 1) = splitChunks m' text := by
  suffices h : ∀ (N : Nat) (text : List Char), text.length = N →
      _split_text_to_paragraphs text (m' + 1) = splitChunks m' text from
    h text.length text rfl
  intro N
  induction N using Nat.strong_induction_on with
  | _ N ih =>
    intro text hlen
    match text with
    | [] =>
      simp [_split_text_to_paragraphs, splitChunks,
        Nat.div_eq_of_lt (Nat.lt_succ_self m')]
    | c :: rest =>
      simp only [List.length_cons] at hlen
      rw [_split_text_to_paragraphs]
      simp only [List.length_cons]
      have hD : (rest.drop m').length = rest.length - m' := by simp
      have hceil : (rest.length + 1 + (m' + 1) - 1) / (m' + 1)
          = ((rest.drop m').length + (m' + 1) - 1) / (m' + 1) + 1 := by
        rw [hD]
        rcases le_or_lt rest.length m' with hle | hlt
        · have h0 : rest.length - m' = 0 := by omega
          have h1 : rest.length + 1 + (m' + 1) - 1 = rest.length + (m' + 1) := by
            omega
          have h2 : 0 + (m' + 1) - 1 = m' := by omega
          rw [h0, h1, h2, Nat.add_div_right _ (Nat.succ_pos m'),
            Nat.div_eq_of_lt (show rest.length < m' + 1 by omega),
            Nat.div_eq_of_lt (Nat.lt_succ_self m')]
        · have h1 : rest.length + 1 + (m' + 1) - 1 = rest.length + (m' + 1) := by
            omega
          have h2 : rest.length - m' + (m' + 1) - 1 = rest.length := by omega
          rw [h1, h2, Nat.add_div_right _ (Nat.succ_pos m')]
      rw [hceil, List.range_succ_eq_map, splitChunks]
      simp only [List.map_cons, Nat.zero_mul, List.drop_zero, List.map_map]
      congr 1
      have hrec := ih (rest.drop m').length (by rw [hD]; omega) (rest.drop m') rfl
      rw [← hrec, _split_text_to_paragraphs]
      congr 1
      funext k
      simp only [Function.comp_apply, Nat.succ_eq_add_one]
      have h5 : (k + 1) * (m' + 1) = (m' + k * (m' + 1)) + 1 := by ring
      rw [h5, List.drop_succ_cons, List.drop_drop]

theorem splitChunks_flatten (m' : Nat) (l : List Char) :
    (splitChunks m' l).flatten = l := by
  suffices h : ∀ (N : Nat) (l : List Char), l.length = N →
      (splitChunks m' l).flatten = l from h l.length l rfl
  intro N
  induction N using Nat.strong_induction_on with
  | _ N ih =>
    intro l hlen
    match l with
    | [] => simp [splitChunks]
    | c :: rest =>
      simp only [List.length_cons] at hlen
      rw [splitChunks, List.flatten_cons,
        ih (rest.drop m').length (by simp; omega) (rest.drop m') rfl]
      have h1 : rest.drop m' = (c :: rest).drop (m' + 1) := by simp
      rw [h1, List.take_append_drop]

theorem splitChunks_length_le (m' : Nat) (l : List Char) :
    ∀ chunk ∈ splitChunks m' l, chunk.length ≤ m' + 1 := by
  suffices h : ∀ (N : Nat) (l : List Char), l.length = N →
      ∀ chunk ∈ splitChunks m' l, chunk.length ≤ m' + 1 from h l.length l rfl
  intro N
  induction N using Nat.strong_induction_on with
  | _ N ih =>
    intro l hlen chunk hc
    match l with
    | [] => simp [splitChunks] at hc
    | c :: rest =>
      simp only [List.length_cons] at hlen
      rw [splitChunks] at hc
      rcases List.mem_cons.mp hc with hc1 | hc1
      · subst hc1; exact List.length_take_le _ _
      · exact ih (rest.drop m').length (by simp; omega) (rest.drop m') rfl chunk hc1

theorem splitChunks_ne_nil (m' : Nat) (l : List Char) :
    ∀ chunk ∈ splitChunks m' l, chunk ≠ [] := by
  suffices h : ∀ (N : Nat) (l : List Char), l.length = N →
      ∀ chunk ∈ splitChunks m' l, chunk ≠ [] from h l.length l rfl
  intro N
  induction N using Nat.strong_induction_on with
  | _ N ih =>
    intro l hlen chunk hc
    match l with
    | [] => simp [splitChunks] at hc
    | c :: rest =>
      simp only [List.length_cons] at hlen
      rw [splitChunks] at hc
      rcases List.mem_cons.mp hc with hc1 | hc1
      · subst hc1; simp
      · exact ih (rest.drop m').length (by simp; omega) (rest.drop m') rfl chunk hc1



/-- A Python `datetime` value, identified by its `isoformat()` string (the
only observation the source makes of it); as a Python object it is always
truthy. -/
structure PyDateTime where
  iso : String
  deriving DecidableEq, Repr

/-- The typed property values accepted by `create_page` /
`_build_page_properties` (client.py:392-414): the fixed schema of nine
optional fields.  `none` models an absent dict key (the source reads the dict
only through `.get` and `in`, so a key bound to Python `None` behaves like an
absent key for the `.get`-guarded fields). -/
structure PageProps where
  source : Option String            -- 来源 (select)
  tags : Option (List String)       -- 标签 (multi_select)
  pinned : Option Bool              -- 是否置顶 (checkbox)
  sourceLink : Option String        -- 源链接 (url)
  createdTime : Option PyDateTime   -- 创建时间 (date)
  updatedTime : Option PyDateTime   -- 更新时间 (date)
  fileCount : Option Int            -- 文件数量 (number)
  linkCount : Option Int            -- 链接数量 (number)
  status : Option String            -- 状态 (select)
  deriving DecidableEq, Repr

/-- The `"标题"` (title, rich-text) entry every built property dict starts
with (client.py:266-277). -/
def titleEntry (title : String) : String × Wire :=
  ("标题", .dict [("title", .list [.dict [("type", .str "text"),
    ("text", .dict [("content", .str title)])]])])

/-- `if properties.get('来源'):` — a select entry, added only when the value
is truthy (non-empty string). -/
def sourceEntries : Option String → List (String × Wire)
  | some s =>
    if s ≠ "" then [("来源", .dict [("select", .dict [("name", .str s)])])]
    else []
  | none => []

/-- `if properties.get('标签'):` — a multi-select entry, added only when the
list is truthy (non-empty). -/
def tagsEntries : Option (List String) → List (String × Wire)
  | some tags =>
    if tags ≠ [] then
      [("标签", .dict [("multi_select",
        .list (tags.map (fun tag => Wire.dict [("name", .str tag)])))])]
    else []
  | none => []

/-- `if '是否置顶' in properties:` — a checkbox entry, added on key presence
regardless of the boolean's value. -/
def pinnedEntries : Option Bool → List (String × Wire)
  | some b => [("是否置顶", .dict [("checkbox", .bool b)])]
  | none => []

/-- `if properties.get('源链接'):` — a url entry, added only when the value is
truthy (non-empty string). -/
def linkEntries : Option String → List (String × Wire)
  | some u => if u ≠ "" then [("源链接", .dict [("url", .str u)])] else []
  | none => []

/-- `if properties.get('创建时间'):` / `('更新时间')` — a date entry holding
`value.isoformat()`; a present `datetime` object is always truthy. -/
def dateEntries (key : String) : Option PyDateTime → List (String × Wire)
  | some d => [(key, .dict [("date", .dict [("start", .str d.iso)])])]
  | none => []

/-- `if '文件数量' in properties:` / `('链接数量')` — a number entry, added on
key presence regardless of the value (zero included). -/
def numberEntries (key : String) : Option Int → List (String × Wire)
  | some n => [(key, .dict [("number", .int n)])]
  | none => []

/-- `if properties.get('状态'):` — a select entry, added only when the value
is truthy (non-empty string). -/
def statusEntries : Option String → List (String × Wire)
  | some s =>
    if s ≠ "" then [("状态", .dict [("select", .dict [("name", .str s)])])]
    else []
  | none => []

/-- `NotionClient._build_page_properties` (client.py:256-346).  The Python
dict is built by successive assignments to pairwise-distinct literal keys, in
source order, so it is modelled as the concatenation of the per-field entry
lists.  `if not properties: return page_properties` returns the title-only
dict for a falsy (absent or empty) properties argument. -/
def _build_page_properties (title : String) (properties : Option PageProps) :
    List (String × Wire) :=
  match properties with
  | none => [titleEntry title]
  | some p =>
    [titleEntry title] ++ sourceEntries p.source ++ tagsEntries p.tags
      ++ pinnedEntries p.pinned ++ linkEntries p.sourceLink
      ++ dateEntries "创建时间" p.createdTime ++ dateEntries "更新时间" p.updatedTime
      ++ numberEntries "文件数量" p.fileCount ++ numberEntries "链接数量" p.linkCount
      ++ statusEntries p.status

/-- The name field of one multi-select wire item (inverse of the builder's
`{"name": tag}`). -/
def extractTagName : Wire → Option String
  | .dict [("name", .str t)] => some t
  | _ => none

/-- Inverse parsing of a select wire value.  The `parse_*` functions follow
the spec's round-trip sentence (§8): they read back the fixed-schema wire
format produced by `_build_page_properties`. -/
def parseSelect : Option Wire → Option String
  | some (.dict [("select", .dict [("name", .str s)])]) => some s
  | _ => none

/-- Inverse parsing of a multi-select wire value. -/
def parseMultiSelect : Option Wire → Option (List String)
  | some (.dict [("multi_select", .list xs)]) => some (xs.filterMap extractTagName)
  | _ => none

/-- Inverse parsing of a checkbox wire value. -/
def parseCheckbox : Option Wire → Option Bool
  | some (.dict [("checkbox", .bool b)]) => some b
  | _ => none

/-- Inverse parsing of a url wire value. -/
def parseUrl : Option Wire → Option String
  | some (.dict [("url", .str u)]) => some u
  | _ => none

/-- Inverse parsing of a date wire value. -/
def parseDate : Option Wire → Option PyDateTime
  | some (.dict [("date", .dict [("start", .str s)])]) => some ⟨s⟩
  | _ => none

/-- Inverse parsing of a number wire value. -/
def parseNumber : Option Wire → Option Int
  | some (.dict [("number", .int n)]) => some n
  | _ => none

/-- Inverse parsing of the nine fixed schema fields out of a built property
dict. -/
def parse_page_properties (props : List (String × Wire)) : PageProps :=
  { source := parseSelect (props.lookup "来源")
  , tags := parseMultiSelect (props.lookup "标签")
  , pinned := parseCheckbox (props.lookup "是否置顶")
  , sourceLink := parseUrl (props.lookup "源链接")
  , createdTime := parseDate (props.lookup "创建时间")
  , updatedTime := parseDate (props.lookup "更新时间")
  , fileCount := parseNumber (props.lookup "文件数量")
  , linkCount := parseNumber (props.lookup "链接数量")
  , status := parseSelect (props.lookup "状态") }

/-- Inverse parsing of the title (rich-text) entry. -/
def parse_title (props : List (String × Wire)) : Option String :=
  match props.lookup "标题" with
  | some (.dict [("title", .list [.dict [("type", .str "text"),
      ("text", .dict [("content", .str s)])]])]) => some s
  | _ => none

theorem extractTagName_map (ts : List String) :
    List.filterMap (extractTagName ∘ fun tag => Wire.dict [("name", .str tag)]) ts
      = ts := by
  induction ts with
  | nil => rfl
  | cons t ts ih => simp [List.filterMap_cons, extractTagName, ih]

theorem lookup_single_key (k0 : String) (l : List (String × Wire))
    (hl : ∀ p ∈ l, p.1 = k0) (k : String) (hk : k ≠ k0) :
    l.lookup k = none := by
  induction l with
  | nil => rfl
  | cons a l ih =>
    rcases a with ⟨ka, va⟩
    have ha : ka = k0 := hl (ka, va) (List.mem_cons_self _ _)
    subst ha
    have hb : (k == ka) = false := by simp [hk]
    simp only [List.lookup, hb]
    exact ih (fun p hp => hl p (List.mem_cons_of_mem _ hp))

theorem titleEntry_keys (title : String) :
    ∀ p ∈ [titleEntry title], p.1 = "标题" := by
  simp [titleEntry]

theorem sourceEntries_keys (o : Option String) :
    ∀ p ∈ sourceEntries o, p.1 = "来源" := by
  rcases o with _ | s
  · simp [sourceEntries]
  · by_cases h : s = "" <;> simp [sourceEntries, h]

theorem tagsEntries_keys (o : Option (List String)) :
    ∀ p ∈ tagsEntries o, p.1 = "标签" := by
  rcases o with _ | ts
  · simp [tagsEntries]
  · by_cases h : ts = [] <;> simp [tagsEntries, h]

theorem pinnedEntries_keys (o : Option Bool) :
    ∀ p ∈ pinnedEntries o, p.1 = "是否置顶" := by
  rcases o with _ | b <;> simp [pinnedEntries]

theorem linkEntries_keys (o : Option String) :
    ∀ p ∈ linkEntries o, p.1 = "源链接" := by
  rcases o with _ | u
  · simp [linkEntries]
  · by_cases h : u = "" <;> simp [linkEntries, h]

theorem dateEntries_keys (key : String) (o : Option PyDateTime) :
    ∀ p ∈ dateEntries key o, p.1 = key := by
  rcases o with _ | d <;> simp [dateEntries]

theorem numberEntries_keys (key : String) (o : Option Int) :
    ∀ p ∈ numberEntries key o, p.1 = key := by
  rcases o with _ | n <;> simp [numberEntries]

theorem statusEntries_keys (o : Option String) :
    ∀ p ∈ statusEntries o, p.1 = "状态" := by
  rcases o with _ | s
  · simp [statusEntries]
  · by_cases h : s = "" <;> simp [statusEntries, h]

theorem lookup_build_source (title : String) (p : PageProps) :
    (_build_page_properties title (some p)).lookup "来源"
      = (sourceEntries p.source).lookup "来源" := by
  simp only [_build_page_properties, List.lookup_append]
  rw [lookup_single_key "标题" _ (titleEntry_keys title) "来源" (by decide),
    lookup_single_key "标签" _ (tagsEntries_keys p.tags) "来源" (by decide),
    lookup_single_key "是否置顶" _ (pinnedEntries_keys p.pinned) "来源" (by decide),
    lookup_single_key "源链接" _ (linkEntries_keys p.sourceLink) "来源" (by decide),
    lookup_single_key "创建时间" _ (dateEntries_keys "创建时间" p.createdTime) "来源" (by decide),
    lookup_single_key "更新时间" _ (dateEntries_keys "更新时间" p.updatedTime) "来源" (by decide),
    lookup_single_key "文件数量" _ (numberEntries_keys "文件数量" p.fileCount) "来源" (by decide),
    lookup_single_key "链接数量" _ (numberEntries_keys "链接数量" p.linkCount) "来源" (by decide),
    lookup_single_key "状态" _ (statusEntries_keys p.status) "来源" (by decide)]
  simp only [Option.none_or, Option.or_none]

theorem lookup_build_tags (title : String) (p : PageProps) :
    (_build_page_properties title (some p)).lookup "标签"
      = (tagsEntries p.tags).lookup "标签" := by
  simp only [_build_page_properties, List.lookup_append]
  rw [lookup_single_key "标题" _ (titleEntry_keys title) "标签" (by decide),
    lookup_single_key "来源" _ (sourceEntries_keys p.source) "标签" (by decide),
    lookup_single_key "是否置顶" _ (pinnedEntries_keys p.pinned) "标签" (by decide),
    lookup_single_key "源链接" _ (linkEntries_keys p.sourceLink) "标签" (by decide),
    lookup_single_key "创建时间" _ (dateEntries_keys "创建时间" p.createdTime) "标签" (by decide),
    lookup_single_key "更新时间" _ (dateEntries_keys "更新时间" p.updatedTime) "标签" (by decide),
    lookup_single_key "文件数量" _ (numberEntries_keys "文件数量" p.fileCount) "标签" (by decide),
    lookup_single_key "链接数量" _ (numberEntries_keys "链接数量" p.linkCount) "标签" (by decide),
    lookup_single_key "状态" _ (statusEntries_keys p.status) "标签" (by decide)]
  simp only [Option.none_or, Option.or_none]

theorem lookup_build_pinned (title : String) (p : PageProps) :
    (_build_page_properties title (some p)).lookup "是否置顶"
      = (pinnedEntries p.pinned).lookup "是否置顶" := by
  simp only [_build_page_properties, List.lookup_append]
  rw [lookup_single_key "标题" _ (titleEntry_keys title) "是否置顶" (by decide),
    lookup_single_key "来源" _ (sourceEntries_keys p.source) "是否置顶" (by decide),
    lookup_single_key "标签" _ (tagsEntries_keys p.tags) "是否置顶" (by decide),
    lookup_single_key "源链接" _ (linkEntries_keys p.sourceLink) "是否置顶" (by decide),
    lookup_single_key "创建时间" _ (dateEntries_keys "创建时间" p.createdTime) "是否置顶" (by decide),
    lookup_single_key "更新时间" _ (dateEntries_keys "更新时间" p.updatedTime) "是否置顶" (by decide),
    lookup_single_key "文件数量" _ (numberEntries_keys "文件数量" p.fileCount) "是否置顶" (by decide),
    lookup_single_key "链接数量" _ (numberEntries_keys "链接数量" p.linkCount) "是否置顶" (by decide),
    lookup_single_key "状态" _ (statusEntries_keys p.status) "是否置顶" (by decide)]
  simp only [Option.none_or, Option.or_none]

theorem lookup_build_link (title : String) (p : PageProps) :
    (_build_page_properties title (some p)).lookup "源链接"
      = (linkEntries p.sourceLink).lookup "源链接" := by
  simp only [_build_page_properties, List.lookup_append]
  rw [lookup_single_key "标题" _ (titleEntry_keys title) "源链接" (by decide),
    lookup_single_key "来源" _ (sourceEntries_keys p.source) "源链接" (by decide),
    lookup_single_key "标签" _ (tagsEntries_keys p.tags) "源链接" (by decide),
    lookup_single_key "是否置顶" _ (pinnedEntries_keys p.pinned) "源链接" (by decide),
    lookup_single_key "创建时间" _ (dateEntries_keys "创建时间" p.createdTime) "源链接" (by decide),
    lookup_single_key "更新时间" _ (dateEntries_keys "更新时间" p.updatedTime) "源链接" (by decide),
    lookup_single_key "文件数量" _ (numberEntries_keys "文件数量" p.fileCount) "源链接" (by decide),
    lookup_single_key "链接数量" _ (numberEntries_keys "链接数量" p.linkCount) "源链接" (by decide),
    lookup_single_key "状态" _ (statusEntries_keys p.status) "源链接" (by decide)]
  simp only [Option.none_or, Option.or_none]

theorem lookup_build_created (title : String) (p : PageProps) :
    (_build_page_properties title (some p)).lookup "创建时间"
      = (dateEntries "创建时间" p.createdTime).lookup "创建时间" := by
  simp only [_build_page_properties, List.lookup_append]
  rw [lookup_single_key "标题" _ (titleEntry_keys title) "创建时间" (by decide),
    lookup_single_key "来源" _ (sourceEntries_keys p.source) "创建时间" (by decide),
    lookup_single_key "标签" _ (tagsEntries_keys p.tags) "创建时间" (by decide),
    lookup_single_key "是否置顶" _ (pinnedEntries_keys p.pinned) "创建时间" (by decide),
    lookup_single_key "源链接" _ (linkEntries_keys p.sourceLink) "创建时间" (by decide),
    lookup_single_key "更新时间" _ (dateEntries_keys "更新时间" p.updatedTime) "创建时间" (by decide),
    lookup_single_key "文件数量" _ (numberEntries_keys "文件数量" p.fileCount) "创建时间" (by decide),
    lookup_single_key "链接数量" _ (numberEntries_keys "链接数量" p.linkCount) "创建时间" (by decide),
    lookup_single_key "状态" _ (statusEntries_keys p.status) "创建时间" (by decide)]
  simp only [Option.none_or, Option.or_none]

theorem lookup_build_updated (title : String) (p : PageProps) :
    (_build_page_properties title (some p)).lookup "更新时间"
      = (dateEntries "更新时间" p.updatedTime).lookup "更新时间" := by
  simp only [_build_page_properties, List.lookup_append]
  rw [lookup_single_key "标题" _ (titleEntry_keys title) "更新时间" (by decide),
    lookup_single_key "来源" _ (sourceEntries_keys p.source) "更新时间" (by decide),
    lookup_single_key "标签" _ (tagsEntries_keys p.tags) "更新时间" (by decide),
    lookup_single_key "是否置顶" _ (pinnedEntries_keys p.pinned) "更新时间" (by decide),
    lookup_single_key "源链接" _ (linkEntries_keys p.sourceLink) "更新时间" (by decide),
    lookup_single_key "创建时间" _ (dateEntries_keys "创建时间" p.createdTime) "更新时间" (by decide),
    lookup_single_key "文件数量" _ (numberEntries_keys "文件数量" p.fileCount) "更新时间" (by decide),
    lookup_single_key "链接数量" _ (numberEntries_keys "链接数量" p.linkCount) "更新时间" (by decide),
    lookup_single_key "状态" _ (statusEntries_keys p.status) "更新时间" (by decide)]
  simp only [Option.none_or, Option.or_none]

theorem lookup_build_fileCount (title : String) (p : PageProps) :
    (_build_page_properties title (some p)).lookup "文件数量"
      = (numberEntries "文件数量" p.fileCount).lookup "文件数量" := by
  simp only [_build_page_properties, List.lookup_append]
  rw [lookup_single_key "标题" _ (titleEntry_keys title) "文件数量" (by decide),
    lookup_single_key "来源" _ (sourceEntries_keys p.source) "文件数量" (by decide),
    lookup_single_key "标签" _ (tagsEntries_keys p.tags) "文件数量" (by decide),
    lookup_single_key "是否置顶" _ (pinnedEntries_keys p.pinned) "文件数量" (by decide),
    lookup_single_key "源链接" _ (linkEntries_keys p.sourceLink) "文件数量" (by decide),
    lookup_single_key "创建时间" _ (dateEntries_keys "创建时间" p.createdTime) "文件数量" (by decide),
    lookup_single_key "更新时间" _ (dateEntries_keys "更新时间" p.updatedTime) "文件数量" (by decide),
    lookup_single_key "链接数量" _ (numberEntries_keys "链接数量" p.linkCount) "文件数量" (by decide),
    lookup_single_key "状态" _ (statusEntries_keys p.status) "文件数量" (by decide)]
  simp only [Option.none_or, Option.or_none]

theorem lookup_build_linkCount (title : String) (p : PageProps) :
    (_build_page_properties title (some p)).lookup "链接数量"
      = (numberEntries "链接数量" p.linkCount).lookup "链接数量" := by
  simp only [_build_page_properties, List.lookup_append]
  rw [lookup_single_key "标题" _ (titleEntry_keys title) "链接数量" (by decide),
    lookup_single_key "来源" _ (sourceEntries_keys p.source) "链接数量" (by decide),
    lookup_single_key "标签" _ (tagsEntries_keys p.tags) "链接数量" (by decide),
    lookup_single_key "是否置顶" _ (pinnedEntries_keys p.pinned) "链接数量" (by decide),
    lookup_single_key "源链接" _ (linkEntries_keys p.sourceLink) "链接数量" (by decide),
    lookup_single_key "创建时间" _ (dateEntries_keys "创建时间" p.createdTime) "链接数量" (by decide),
    lookup_single_key "更新时间" _ (dateEntries_keys "更新时间" p.updatedTime) "链接数量" (by decide),
    lookup_single_key "文件数量" _ (numberEntries_keys "文件数量" p.fileCount) "链接数量" (by decide),
    lookup_single_key "状态" _ (statusEntries_keys p.status) "链接数量" (by decide)]
  simp only [Option.none_or, Option.or_none]

theorem lookup_build_status (title : String) (p : PageProps) :
    (_build_page_properties title (some p)).lookup "状态"
      = (statusEntries p.status).lookup "状态" := by
  simp only [_build_page_properties, List.lookup_append]
  rw [lookup_single_key "标题" _ (titleEntry_keys title) "状态" (by decide),
    lookup_single_key "来源" _ (sourceEntries_keys p.source) "状态" (by decide),
    lookup_single_key "标签" _ (tagsEntries_keys p.tags) "状态" (by decide),
    lookup_single_key "是否置顶" _ (pinnedEntries_keys p.pinned) "状态" (by decide),
    lookup_single_key "源链接" _ (linkEntries_keys p.sourceLink) "状态" (by decide),
    lookup_single_key "创建时间" _ (dateEntries_keys "创建时间" p.createdTime) "状态" (by decide),
    lookup_single_key "更新时间" _ (dateEntries_keys "更新时间" p.updatedTime) "状态" (by decide),
    lookup_single_key "文件数量" _ (numberEntries_keys "文件数量" p.fileCount) "状态" (by decide),
    lookup_single_key "链接数量" _ (numberEntries_keys "链接数量" p.linkCount) "状态" (by decide)]
  simp only [Option.none_or, Option.or_none]

theorem lookup_build_title (title : String) (p : PageProps) :
    (_build_page_properties title (some p)).lookup "标题"
      = some (titleEntry title).2 := by
  simp only [_build_page_properties, List.lookup_append]
  rw [show List.lookup "标题" [titleEntry title] = some (titleEntry title).2 from by
    simp [titleEntry, List.lookup]]
  rfl

/-- C8 (amended): building the page properties payload and inverse-parsing the
fixed schema fields recovers every typed input value, provided the
truthiness-guarded fields (select `来源`/`状态`, multi-select `标签`, url
`源链接`) are not present-but-falsy (the source's `if properties.get(key):`
guards drop an empty string / empty list as if the key were absent); checkbox,
date and number fields round-trip unconditionally, and the title (rich text)
is recovered as well. -/
theorem page_properties_roundtrip (title : String) (p : PageProps)
    (h1 : p.source ≠ some "") (h2 : p.tags ≠ some [])
    (h3 : p.sourceLink ≠ some "") (h4 : p.status ≠ some "") :
    parse_page_properties (_build_page_properties title (some p)) = p ∧
    parse_title (_build_page_properties title (some p)) = some title := by
  constructor
  · simp only [parse_page_properties]
    rw [lookup_build_source, lookup_build_tags, lookup_build_pinned,
      lookup_build_link, lookup_build_created, lookup_build_updated,
      lookup_build_fileCount, lookup_build_linkCount, lookup_build_status]
    obtain ⟨src, tags, pin, link, cr, up, fc, lc, st⟩ := p
    simp only [] at h1 h2 h3 h4 ⊢
    simp only [PageProps.mk.injEq]
    refine ⟨?_, ?_, ?_, ?_, ?_, ?_, ?_, ?_, ?_⟩
    · rcases src with _ | s
      · rfl
      · have hs : s ≠ "" := by intro h; rw [h] at h1; exact h1 rfl
        simp [sourceEntries, hs, List.lookup, parseSelect]
    · rcases tags with _ | ts
      · rfl
      · have hts : ts ≠ [] := by intro h; rw [h] at h2; exact h2 rfl
        simp [tagsEntries, hts, List.lookup, parseMultiSelect, extractTagName_map]
    · rcases pin with _ | b
      · rfl
      · simp [pinnedEntries, List.lookup, parseCheckbox]
    · rcases link with _ | u
      · rfl
      · have hu : u ≠ "" := by intro h; rw [h] at h3; exact h3 rfl
        simp [linkEntries, hu, List.lookup, parseUrl]
    · rcases cr with _ | d
      · rfl
      · rcases d with ⟨s0⟩
        simp [dateEntries, List.lookup, parseDate]
    · rcases up with _ | d
      · rfl
      · rcases d with ⟨s0⟩
        simp [dateEntries, List.lookup, parseDate]
    · rcases fc with _ | n
      · rfl
      · simp [numberEntries, List.lookup, parseNumber]
    · rcases lc with _ | n
      · rfl
      · simp [numberEntries, List.lookup, parseNumber]
    · rcases st with _ | s
      · rfl
      · have hs : s ≠ "" := by intro h; rw [h] at h4; exact h4 rfl
        simp [statusEntries, hs, List.lookup, parseSelect]
  · rw [parse_title, lookup_build_title]
    simp [titleEntry]

/-- A Python value as passed in the `properties` dict of `update_page`: a
`datetime`, a `bool`, an `int`, a `float`, a `str`, or any other object
(passed through verbatim by the builder's `else` branch). -/
inductive PyValue where
  | datetime (d : PyDateTime)
  | boolean (b : Bool)
  | int (n : Int)
  | float (q : Rat)
  | str (s : String)
  | other (w : Wire)

/-- Python `isinstance(value, datetime)`. -/
def isinstance_datetime : PyValue → Bool
  | .datetime _ => true
  | _ => false

/-- Python `isinstance(value, (int, float))`.  In Python, `bool` is a subclass
of `int`, so `True` and `False` pass this test. -/
def isinstance_int_or_float : PyValue → Bool
  | .boolean _ => true
  | .int _ => true
  | .float _ => true
  | _ => false

/-- Python `isinstance(value, str)`. -/
def isinstance_str : PyValue → Bool
  | .str _ => true
  | _ => false

/-- The wire form of a Python value when placed inside a payload dict
(booleans stay booleans: Python serialises `True` under whatever wrapper key
the builder chose). -/
def PyValue.toWire : PyValue → Wire
  | .datetime d => .str d.iso
  | .boolean b => .bool b
  | .int n => .int n
  | .float q => .float q
  | .str s => .str s
  | .other w => w

/-- Python `value.isoformat()`, applied by the builder only after an
`isinstance(value, datetime)` test succeeded. -/
def PyValue.isoformat : PyValue → String
  | .datetime d => d.iso
  | _ => ""

/-- The loop body of `NotionClient._build_update_payload` (client.py:361-384):
one `(key, value)` item mapped to its wire entry.  The `isinstance` tests are
tried in source order: `datetime` first, then `(int, float)` — which booleans
satisfy — then `str`, else the value is passed through unchanged. -/
def _build_update_entry (key : String) (value : PyValue) : String × Wire :=
  if isinstance_datetime value then
    (key, .dict [("date", .dict [("start", .str value.isoformat)])])
  else if isinstance_int_or_float value then
    (key, .dict [("number", value.toWire)])
  else if isinstance_str value then
    (key, .dict [("rich_text", .list [.dict [("type", .str "text"),
      ("text", .dict [("content", value.toWire)])]])])
  else
    (key, value.toWire)

/-- `NotionClient._build_update_payload` (client.py:348-386): the
`{"properties": {...}}` payload, one entry per input item. -/
def _build_update_payload (properties : List (String × PyValue)) : Wire :=
  .dict [("properties",
    .dict (properties.map (fun kv => _build_update_entry kv.1 kv.2)))]

/-- One iteration's outcome of the status query inside
`wait_for_file_upload`: either `get_file_upload_status` returned a JSON
response, or it raised (any exception — transport errors surface from
`_make_request` as `NotionAPIError`s); `errmsg` is Python `str(e)`. -/
inductive PollOutcome where
  | resp (response : Wire)
  | exn (errmsg : String)

/-- `response.get('status')` as compared against the string literals
`'uploaded'` / `'failed'` (a non-string status compares unequal to both). -/
def statusOf (response : Wire) : Option String :=
  match response.get "status" with
  | some (.str s) => some s
  | _ => none

/-- `response.get('file_import_result', {}).get('error', {}).get('message',
'未知错误')` (client.py:707,713). -/
def failedErrorMessage (response : Wire) : String :=
  match ((response.getDictD "file_import_result").getDictD "error").get "message" with
  | some (.str s) => s
  | _ => "未知错误"

/-- The observable result of `wait_for_file_upload`: the returned response,
or the message of the `NotionFileUploadError` it raises. -/
inductive WaitResult where
  | success (response : Wire)
  | failure (errorMessage : String)

/-- The loop of `NotionClient.wait_for_file_upload` (client.py:697-735),
together with the number of status-query attempts it issues.
`attempt` is the loop index, `remaining = max_retries - attempt` the number of
iterations left (`remaining = 0` models falling off the `for` loop into the
final timeout raise).  Inside the `try`: status `'uploaded'` returns the
response; status `'failed'` raises `NotionFileUploadError('文件上传失败: ' +
message)` — but that raise happens inside the `try`, so the blanket `except
Exception` catches it and, exactly like a status-query exception, re-raises it
wrapped as `'等待文件上传超时: ' + str(e)` when `attempt == max_retries - 1`
and otherwise sleeps and continues with the next attempt; any other status
sleeps and continues.  Sleeping and the doubling delay are timing-only and not
modelled. -/
def waitGo (polls : Nat → PollOutcome) (max_retries : Nat) :
    Nat → Nat → WaitResult × Nat
  | _attempt, 0 => (.failure "等待文件上传超时", 0)
  | attempt, remaining + 1 =>
    match polls attempt with
    | .exn errmsg =>
      if attempt = max_retries - 1 then
        (.failure ("等待文件上传超时: " ++ errmsg), 1)
      else
        let r := waitGo polls max_retries (attempt + 1) remaining
        (r.1, r.2 + 1)
    | .resp response =>
      if statusOf response = some "uploaded" then
        (.success response, 1)
      else if statusOf response = some "failed" then
        let e := "文件上传失败: " ++ failedErrorMessage response
        if attempt = max_retries - 1 then
          (.failure ("等待文件上传超时: " ++ e), 1)
        else
          let r := waitGo polls max_retries (attempt + 1) remaining
          (r.1, r.2 + 1)
      else
        let r := waitGo polls max_retries (attempt + 1) remaining
        (r.1, r.2 + 1)

/-- `NotionClient.wait_for_file_upload` (client.py:673-735) over the stream
`polls` of status-query outcomes, returning its result and the total number of
status-query attempts issued. -/
def wait_for_file_upload (polls : Nat → PollOutcome) (max_retries : Nat) :
    WaitResult × Nat :=
  waitGo polls max_retries 0 max_retries

/-- A poll outcome whose response carries a status that is neither
`'uploaded'` nor `'failed'` (the pending-like case of the loop). -/
def isPendingOutcome (o : PollOutcome) : Prop :=
  ∃ response, o = .resp response ∧ statusOf response ≠ some "uploaded" ∧
    statusOf response ≠ some "failed"

theorem waitGo_pending_all (polls : Nat → PollOutcome) (max_retries : Nat) :
    ∀ (remaining attempt : Nat),
      (∀ i, attempt ≤ i → i < attempt + remaining → isPendingOutcome (polls i)) →
      waitGo polls max_retries attempt remaining
        = (.failure "等待文件上传超时", remaining) := by
  intro remaining
  induction remaining with
  | zero => intro attempt _; rfl
  | succ rem ih =>
    intro attempt h
    obtain ⟨response, hresp, hu, hf⟩ := h attempt le_rfl (by omega)
    have hstep : waitGo polls max_retries attempt (rem + 1)
        = ((waitGo polls max_retries (attempt + 1) rem).1,
           (waitGo polls max_retries (attempt + 1) rem).2 + 1) := by
      simp only [waitGo, hresp, if_neg hu, if_neg hf]
    rw [hstep, ih (attempt + 1) (fun i hi1 hi2 => h i (by omega) (by omega))]

theorem waitGo_pending_skip (polls : Nat → PollOutcome) (max_retries : Nat) :
    ∀ (k attempt r : Nat),
      (∀ i, attempt ≤ i → i < attempt + k → isPendingOutcome (polls i)) →
      waitGo polls max_retries attempt (k + r)
        = ((waitGo polls max_retries (attempt + k) r).1,
           (waitGo polls max_retries (attempt + k) r).2 + k) := by
  intro k
  induction k with
  | zero => intro attempt r _; simp
  | succ k ih =>
    intro attempt r h
    obtain ⟨response, hresp, hu, hf⟩ := h attempt le_rfl (by omega)
    have hkr : k + 1 + r = (k + r) + 1 := by omega
    rw [hkr]
    have hstep : waitGo polls max_retries attempt ((k + r) + 1)
        = ((waitGo polls max_retries (attempt + 1) (k + r)).1,
           (waitGo polls max_retries (attempt + 1) (k + r)).2 + 1) := by
      simp only [waitGo, hresp, if_neg hu, if_neg hf]
    rw [hstep, ih (attempt + 1) r (fun i hi1 hi2 => h i (by omega) (by omega))]
    have ha : attempt + 1 + k = attempt + (k + 1) := by omega
    rw [ha]
    have hn : (waitGo polls max_retries (attempt + (k + 1)) r).2 + k + 1
        = (waitGo polls max_retries (attempt + (k + 1)) r).2 + (k + 1) := by omega
    rw [hn]

theorem waitGo_exn_step (polls : Nat → PollOutcome) (max_retries attempt remaining : Nat)
    (errmsg : String) (hresp : polls attempt = .exn errmsg) :
    waitGo polls max_retries attempt (remaining + 1)
      = if attempt = max_retries - 1 then
          (.failure ("等待文件上传超时: " ++ errmsg), 1)
        else
          ((waitGo polls max_retries (attempt + 1) remaining).1,
           (waitGo polls max_retries (attempt + 1) remaining).2 + 1) := by
  simp only [waitGo, hresp]

/-- The status response of a failed upload with server-reported detail
`{error:{message:"bad format"}}`. -/
def failedResponse : Wire :=
  .dict [("status", .str "failed"),
         ("file_import_result", .dict [("error",
           .dict [("message", .str "bad format")])])]

/-- The status response of a completed upload. -/
def uploadedResponse : Wire := .dict [("status", .str "uploaded")]

/-- The status response of a still-pending upload. -/
def pendingResponse : Wire := .dict [("status", .str "pending")]

/-- Poll stream whose first status query reports `failed` and every later one
`uploaded`. -/
def pollsFailedThenUploaded : Nat → PollOutcome :=
  fun attempt => if attempt = 0 then .resp failedResponse else .resp uploadedResponse

/-- C1: the claim says a `failed` status makes `wait_for_file_upload` fail
immediately with an `UploadFailure` carrying the server-reported detail and
issue zero further polls.  The code instead raises the failure inside its own
`try`, so the blanket `except Exception` catches it and retries: with
`failed` on attempt 1 and `uploaded` on attempt 2 the run polls twice and
SUCCEEDS; and when every poll reports `failed`, the run still issues all 6
polls and ends with the timeout-wrapped message rather than an immediate
failure. -/
theorem wait_failed_status_is_retried :
    wait_for_file_upload pollsFailedThenUploaded 6 = (.success uploadedResponse, 2) ∧
    wait_for_file_upload (fun _ => .resp failedResponse) 6
      = (.failure "等待文件上传超时: 文件上传失败: bad format", 6) :=
  ⟨rfl, rfl⟩

/-- C4: with every status query reporting a pending-like status, a run with
`max_retries = 6` issues exactly 6 poll attempts and then fails with the
timeout `NotionFileUploadError` (`UploadFailure` kind). -/
theorem wait_all_pending_times_out (polls : Nat → PollOutcome)
    (h : ∀ i, i < 6 → isPendingOutcome (polls i)) :
    wait_for_file_upload polls 6 = (.failure "等待文件上传超时", 6) :=
  waitGo_pending_all polls 6 6 0 (fun i _ h2 => h i (by omega))

theorem wait_all_pending_times_out_witness :
    wait_for_file_upload (fun _ => .resp pendingResponse) 6
      = (.failure "等待文件上传超时", 6) :=
  wait_all_pending_times_out (fun _ => .resp pendingResponse)
    (fun _ _ => ⟨pendingResponse, rfl, by decide, by decide⟩)

/-- C5: an exception raised by a status query counts as one retryable attempt
toward the budget: if it happens on the final attempt (`i = max_retries - 1`,
after pending-like attempts) the run fails permanently with the timeout-kind
`UploadFailure` wrapping the error, with all `max_retries` attempts counted;
on any earlier attempt the poller sleeps and continues — the run's outcome is
exactly the continuation from attempt `i + 1`, with `i + 1` attempts already
counted. -/
theorem wait_query_error_is_retryable (polls : Nat → PollOutcome)
    (max_retries i : Nat) (errmsg : String)
    (hi : i < max_retries) (hp : polls i = .exn errmsg)
    (hpre : ∀ j, j < i → isPendingOutcome (polls j)) :
    (i = max_retries - 1 →
      wait_for_file_upload polls max_retries
        = (.failure ("等待文件上传超时: " ++ errmsg), max_retries)) ∧
    (i ≠ max_retries - 1 →
      wait_for_file_upload polls max_retries
        = ((waitGo polls max_retries (i + 1) (max_retries - (i + 1))).1,
           (waitGo polls max_retries (i + 1) (max_retries - (i + 1))).2 + (i + 1))) := by
  have harg : i + ((max_retries - (i + 1)) + 1) = max_retries := by omega
  have h0 : wait_for_file_upload polls max_retries
      = waitGo polls max_retries 0 (i + ((max_retries - (i + 1)) + 1)) :=
    congrArg (waitGo polls max_retries 0) harg.symm
  have hskip := waitGo_pending_skip polls max_retries i 0 ((max_retries - (i + 1)) + 1)
    (fun j hj1 hj2 => hpre j (by omega))
  rw [Nat.zero_add] at hskip
  have hstep := waitGo_exn_step polls max_retries i (max_retries - (i + 1)) errmsg hp
  constructor
  · intro hlast
    rw [h0, hskip, hstep, if_pos hlast]
    dsimp only
    rw [show 1 + i = max_retries from by omega]
  · intro hne
    rw [h0, hskip, hstep, if_neg hne]
    dsimp only
    rw [show (waitGo polls max_retries (i + 1) (max_retries - (i + 1))).2 + 1 + i
        = (waitGo polls max_retries (i + 1) (max_retries - (i + 1))).2 + (i + 1)
      from by omega]

/-- Poll stream for the C5 witness: a transport error on the first attempt,
`uploaded` afterwards. -/
def pollsWithEarlyError : Nat → PollOutcome :=
  fun attempt => if attempt = 0 then .exn "Connection reset" else .resp uploadedResponse

theorem wait_query_error_is_retryable_witness :
    (0 = 2 - 1 →
      wait_for_file_upload pollsWithEarlyError 2
        = (.failure ("等待文件上传超时: " ++ "Connection reset"), 2)) ∧
    (0 ≠ 2 - 1 →
      wait_for_file_upload pollsWithEarlyError 2
        = ((waitGo pollsWithEarlyError 2 (0 + 1) (2 - (0 + 1))).1,
           (waitGo pollsWithEarlyError 2 (0 + 1) (2 - (0 + 1))).2 + (0 + 1))) :=
  wait_query_error_is_retryable pollsWithEarlyError 2 0 "Connection reset"
    (by decide) rfl (fun j hj => absurd hj (Nat.not_lt_zero j))

/-- An upload-subsystem request URL (contains `file_uploads`). -/
def uploadStatusUrl : String := "https://api.notion.com/v1/file_uploads/abc123"

/-- A structured HTTP 400 error body, as parsed JSON. -/
def errorBodyJson : Wire := .dict [("message", .str "bad"), ("code", .str "x")]

/-- The same body as raw text. -/
def errorBodyText : String := "\x7b\"message\":\"bad\",\"code\":\"x\"\x7d"

/-- C2: the claim says an HTTP error status surfaces to the caller as
`NotionFileUploadError` (for upload URLs) with the original status code and
raw body preserved.  `_handle_response` does raise exactly that — but
`_make_request`'s blanket `except Exception` catches the already-classified
error and re-raises it as a bare `NotionAPIError` built from `str(e)` alone,
so the caller receives a base (transport-kind) error with no status code, no
response body, and no upload/page classification. -/
theorem make_request_strips_classification :
    _handle_response uploadStatusUrl 400 "Bad Request" (some errorBodyJson) errorBodyText
      = .error { kind := .uploadFailure
                 , message := "Notion 文件上传失败: 错误详情:\n- bad"
                 , statusCode := some 400, responseBody := some errorBodyText } ∧
    _make_request uploadStatusUrl
        (.response 400 "Bad Request" (some errorBodyJson) errorBodyText)
      = .error { kind := .transport
                 , message := "Notion API 请求发生意外错误: Notion 文件上传失败: 错误详情:\n- bad"
                 , statusCode := none, responseBody := none } :=
  ⟨rfl, rfl⟩

/-- C3: with no external URL, an unset or ≤ 20 MiB size plans a single-part
upload; a size > 20 MiB plans a multi-part upload with
`number_of_parts = ceil(size / 10 MiB)`; in particular 25165824 bytes give 3
parts.  The plan is a pure function of the inputs. -/
theorem create_file_upload_plan_mode_selection (file_name content_type : String)
    (file_size : Option Nat) :
    (file_size = none →
      planMode (create_file_upload_plan file_name content_type file_size none)
          = some "single_part" ∧
      planParts (create_file_upload_plan file_name content_type file_size none)
          = none) ∧
    (∀ n, file_size = some n → n ≤ 20 * 1024 * 1024 →
      planMode (create_file_upload_plan file_name content_type file_size none)
          = some "single_part" ∧
      planParts (create_file_upload_plan file_name content_type file_size none)
          = none) ∧
    (∀ n, file_size = some n → n > 20 * 1024 * 1024 →
      planMode (create_file_upload_plan file_name content_type file_size none)
          = some "multi_part" ∧
      planParts (create_file_upload_plan file_name content_type file_size none)
          = some (n ⌈/⌉ (10 * 1024 * 1024))) ∧
    planParts (create_file_upload_plan file_name content_type (some 25165824) none)
        = some 3 := by
  refine ⟨?_, ?_, ?_, rfl⟩
  · rintro rfl
    simp [create_file_upload_plan, pyTruthyStr, pyTruthyNat, planMode, planParts]
  · rintro n rfl hle
    have hgt : ¬(20 * 1024 * 1024 < n) := by omega
    simp [create_file_upload_plan, pyTruthyStr, pyTruthyNat, planMode, planParts,
      FILE_SIZE_THRESHOLD, hgt]
  · rintro n rfl hgt
    have h0 : n ≠ 0 := by omega
    have hgt' : 20 * 1024 * 1024 < n := hgt
    simp [create_file_upload_plan, pyTruthyStr, pyTruthyNat, planMode, planParts,
      FILE_SIZE_THRESHOLD, PART_SIZE, h0, hgt', Nat.ceilDiv_eq_add_pred_div]

theorem create_file_upload_plan_mode_selection_witness :
    planMode (create_file_upload_plan "v.mp4" "video/mp4" (some 25165824) none)
        = some "multi_part" ∧
    planParts (create_file_upload_plan "v.mp4" "video/mp4" (some 25165824) none)
        = some (25165824 ⌈/⌉ (10 * 1024 * 1024)) :=
  (create_file_upload_plan_mode_selection "v.mp4" "video/mp4"
    (some 25165824)).2.2.1 25165824 rfl (by decide)

/-- C6 counterexample: `externalUrl = some ""` is set and does not start with
`https://`, yet planning does not fail — Python's `if external_url:` treats
the empty string as absent, so the empty-URL request silently falls through to
single-part mode and a network request IS issued for it. -/
theorem external_url_empty_not_rejected :
    pyStartsWith "" "https://" = false ∧
    create_file_upload_plan "f.png" "image/png" none (some "")
      = .ok { mode := "single_part", number_of_parts := none
              , payload := .dict [("filename", .str "f.png"),
                                  ("content_type", .str "image/png"),
                                  ("mode", .str "single_part")] } ∧
    create_file_upload_network_calls "f.png" "image/png" none (some "")
      = [.dict [("filename", .str "f.png"),
                ("content_type", .str "image/png"),
                ("mode", .str "single_part")]] :=
  ⟨rfl, rfl, rfl⟩

/-- C6 (amended): for every upload request whose external URL is set to a
NON-EMPTY string that does not start with `https://`, planning fails with
`ValueError` (`InvalidArgument`) and no network request is issued. -/
theorem external_url_insecure_rejected (file_name content_type : String)
    (file_size : Option Nat) (u : String) (hne : u ≠ "")
    (hhttps : pyStartsWith u "https://" = false) :
    create_file_upload_plan file_name content_type file_size (some u)
      = .error "external_url 必须以 https:// 开头" ∧
    create_file_upload_network_calls file_name content_type file_size (some u)
      = [] := by
  have ht : pyTruthyStr (some u) = true := by simp [pyTruthyStr, hne]
  constructor
  · simp [create_file_upload_plan, ht, hhttps]
  · simp [create_file_upload_network_calls, create_file_upload_plan, ht, hhttps]

theorem external_url_insecure_rejected_witness :
    create_file_upload_plan "f.png" "image/png" none (some "http://example.com/f.png")
      = .error "external_url 必须以 https:// 开头" ∧
    create_file_upload_network_calls "f.png" "image/png" none
        (some "http://example.com/f.png")
      = [] :=
  external_url_insecure_rejected "f.png" "image/png" none "http://example.com/f.png"
    (by decide) (by decide)

/-- C7: on the structured error body `{"message":"A. B.","code":"x"}`, the
formatter splits the message at sentence boundaries (`'. '`) and reassembles
one `"- "`-prefixed line per sentence: the result contains `"- A"` and
`"- B"`, and has exactly two itemized lines. -/
theorem format_error_message_itemizes :
    _format_error_message (.dict [("message", .str "A. B."), ("code", .str "x")])
        = "错误详情:\n- A\n- B." ∧
    strContains
        (_format_error_message (.dict [("message", .str "A. B."), ("code", .str "x")]))
        "- A" = true ∧
    strContains
        (_format_error_message (.dict [("message", .str "A. B."), ("code", .str "x")]))
        "- B" = true ∧
    ((pySplit
        (_format_error_message (.dict [("message", .str "A. B."), ("code", .str "x")]))
        "\n").filter (fun line => pyStartsWith line "- ")).length = 2 :=
  ⟨rfl, rfl, rfl, rfl⟩

/-- C9: for every text and positive chunk limit, the paragraph splitter
produces chunks of length at most the limit, all non-empty when the input is
non-empty, whose in-order concatenation is the original text. -/
theorem split_text_to_paragraphs_spec (text : List Char) (max_length : Nat)
    (hpos : 0 < max_length) :
    (∀ chunk ∈ _split_text_to_paragraphs text max_length,
      chunk.length ≤ max_length) ∧
    (text ≠ [] → ∀ chunk ∈ _split_text_to_paragraphs text max_length,
      chunk ≠ []) ∧
    (_split_text_to_paragraphs text max_length).flatten = text := by
  obtain ⟨m', rfl⟩ : ∃ m', max_length = m' + 1 := ⟨max_length - 1, by omega⟩
  rw [_split_text_to_paragraphs_eq_splitChunks]
  exact ⟨splitChunks_length_le m' text, fun _ => splitChunks_ne_nil m' text,
    splitChunks_flatten m' text⟩

theorem split_text_to_paragraphs_spec_witness :
    (∀ chunk ∈ _split_text_to_paragraphs "hello!".toList 2, chunk.length ≤ 2) ∧
    ("hello!".toList ≠ [] →
      ∀ chunk ∈ _split_text_to_paragraphs "hello!".toList 2, chunk ≠ []) ∧
    (_split_text_to_paragraphs "hello!".toList 2).flatten = "hello!".toList :=
  split_text_to_paragraphs_spec "hello!".toList 2 (by decide)

/-- Properties whose `来源` (select) value is the empty string: present but
falsy. -/
def emptySourceProps : PageProps :=
  { source := some "", tags := none, pinned := none, sourceLink := none
  , createdTime := none, updatedTime := none, fileCount := none
  , linkCount := none, status := none }

/-- C8 counterexample: with `来源 = some ""` the builder's truthiness guard
drops the field, so inverse parsing returns `none` for it and the round trip
does not recover the original typed values. -/
theorem page_properties_roundtrip_cex :
    parse_page_properties (_build_page_properties "t" (some emptySourceProps))
      ≠ emptySourceProps := by
  decide

/-- A fully-populated, truthy property set covering every supported field
type. -/
def sampleProps : PageProps :=
  { source := some "telegram", tags := some ["news", "ai"], pinned := some true
  , sourceLink := some "https://t.me/c/1", createdTime := some ⟨"2024-01-01T00:00:00"⟩
  , updatedTime := some ⟨"2024-01-02T12:30:00"⟩, fileCount := some 2
  , linkCount := some 0, status := some "已发布" }

theorem page_properties_roundtrip_witness :
    parse_page_properties (_build_page_properties "每日摘要" (some sampleProps))
        = sampleProps ∧
    parse_title (_build_page_properties "每日摘要" (some sampleProps))
        = some "每日摘要" :=
  page_properties_roundtrip "每日摘要" sampleProps (by decide) (by decide)
    (by decide) (by decide)

/-- C10: a boolean property value passed to the update-payload builder is
serialized under the `"number"` wrapper — Python's
`isinstance(value, (int, float))` is satisfied by `bool` — and never under
`"checkbox"`: the produced entry's wire dict holds the boolean under the key
`"number"` and has no `"checkbox"` key at all. -/
theorem update_payload_boolean_under_number (key : String) (b : Bool) :
    _build_update_entry key (.boolean b) = (key, .dict [("number", .bool b)]) ∧
    _build_update_payload [(key, .boolean b)]
      = .dict [("properties", .dict [(key, .dict [("number", .bool b)])])] ∧
    Wire.get (_build_update_entry key (.boolean b)).2 "number" = some (.bool b) ∧
    Wire.get (_build_update_entry key (.boolean b)).2 "checkbox" = none :=
  ⟨rfl, rfl, rfl, rfl⟩
